import Mathlib

/-!
Verification of the Walrus blob-storage example client
(`src/Projects/walrus/examples/python/basic_example.py`).

The script is a thin HTTP client: `WalrusClient.store_blob` issues a single
`PUT {publisher_url}/v1/store?epochs={n}`, `retrieve_blob` a single
`GET {aggregator_url}/v1/{blob_id}`, and `check_blob_status` a single
`HEAD {aggregator_url}/v1/{blob_id}`; `main` runs the store → status →
retrieve demonstration flow and `sys.exit(main())` turns its return value
into the process exit code.

The embedding models each operation in two stages, mirroring the source:
the request it builds (method, URL, query parameters, body, timeout) and
the pure handler that turns the transport outcome (a connection failure, a
timeout, or an HTTP response) into the Python return value or the Python
exception the code raises.  The external publisher/aggregator service is
not part of the repository; where a claim needs it, it is modelled from
the spec (definitions marked `Modelled from the spec:`).
-/

namespace Walrus

/-- A byte payload, as Python `bytes`: a list of byte values. -/
abbrev Bytes := List Nat

/-- JSON values, as produced by `response.json()`. -/
inductive Json where
  | null : Json
  | bool (b : Bool) : Json
  | num (n : Int) : Json
  | str (s : String) : Json
  | arr (elems : List Json) : Json
  | obj (fields : List (String × Json)) : Json

/-- Python truthiness test (`if not blob_id`) on a JSON value:
`None`, `False`, `0`, `""`, `[]` and `{}` are falsy. -/
def jsonFalsy : Json → Bool
  | .null => true
  | .bool b => !b
  | .num n => n == 0
  | .str s => s.isEmpty
  | .arr elems => elems.isEmpty
  | .obj fields => fields.isEmpty

/-- Python exceptions the example can raise.  `connectionError` and
`timeoutError` are `requests` exceptions with `response is None`;
`httpError` is the exception of `raise_for_status()`; `jsonDecodeError`
comes from `response.json()` (a `RequestException` in requests ≥ 2.27);
`valueError` from `int()` on a non-numeric header; `attributeError` from
calling `.get` on a non-dict JSON result. -/
inductive PyError where
  | connectionError : PyError
  | timeoutError : PyError
  | httpError (status : Nat) : PyError
  | jsonDecodeError : PyError
  | valueError : PyError
  | attributeError : PyError
deriving DecidableEq, Repr

/-- Python `dict.get(key)` on a JSON value: `none` when the key is absent,
an `attributeError` when the value is not a dict at all. -/
def pyGet : Json → String → Except PyError (Option Json)
  | .obj fields, key => .ok (fields.lookup key)
  | _, _ => .error .attributeError

/-- HTTP request method. -/
inductive Method where
  | PUT : Method
  | GET : Method
  | HEAD : Method
deriving DecidableEq, Repr

/-- An HTTP request as issued through `requests.Session`. -/
structure Request where
  method : Method
  url : String
  params : List (String × String)
  body : Option Bytes
  timeout : Nat
deriving DecidableEq, Repr

/-- An HTTP response.  `jsonBody` is the result of the requests library
parsing `content` as JSON (`none` = a JSON decode error); `headers` are the
response headers. -/
structure HTTPResponse where
  status : Nat
  content : Bytes
  jsonBody : Option Json
  headers : List (String × String)

/-- What the transport produced for a request: a connection-level failure
(`isTimeout` distinguishes a timeout from a connection error), or an HTTP
response. -/
inductive TransportOutcome where
  | connectionFailure (isTimeout : Bool) : TransportOutcome
  | response (r : HTTPResponse) : TransportOutcome

/-- Model of `requests.Response.raise_for_status()`: raises exactly for client-error
(4xx) and server-error (5xx) status codes. -/
def raiseForStatus (status : Nat) : Bool :=
  decide (400 ≤ status) && decide (status < 600)

/-- Case-insensitive string comparison, character by character. -/
def lowerEq (a b : String) : Bool :=
  a.toList.map Char.toLower == b.toList.map Char.toLower

/-- Case-insensitive header lookup (requests exposes headers as a
case-insensitive dict). -/
def headerGet (headers : List (String × String)) (key : String) : Option String :=
  (headers.find? fun kv => lowerEq kv.1 key).map (·.2)

/-- All characters are decimal digits. -/
def charDigits (cs : List Char) : Bool :=
  cs.all fun c => decide (48 ≤ c.toNat) && decide (c.toNat ≤ 57)

/-- Value of a big-endian list of decimal digit characters. -/
def decimalToNat (cs : List Char) : Nat :=
  cs.foldl (fun acc c => acc * 10 + (c.toNat - 48)) 0

/-- Digit-string parse: `some` the value when every character is a decimal
digit, else `none`. -/
def pyUInt (cs : List Char) : Option Nat :=
  if cs.isEmpty then none
  else if charDigits cs then some (decimalToNat cs) else none

/-- Python `int(s)` on a string with no surrounding whitespace: an optional
sign followed by decimal digits; `none` models the `ValueError` raised on
any other string. -/
def pyInt (s : String) : Option Int :=
  let cs := s.toList
  if cs.isEmpty then none
  else if cs.headD ' ' == '-' then (pyUInt cs.tail).map fun n => -(n : Int)
  else if cs.headD ' ' == '+' then (pyUInt cs.tail).map fun n => (n : Int)
  else (pyUInt cs).map fun n => (n : Int)

/-- Python `str.rstrip(c)`: drop all trailing occurrences of `c`. -/
def pyRstrip (s : String) (c : Char) : String :=
  String.mk (s.toList.reverse.dropWhile (· == c)).reverse

/-- Module-level configuration constants of the example. -/
def PUBLISHER_URL : String := "https://publisher.testnet.walrus.space"

def AGGREGATOR_URL : String := "https://aggregator.testnet.walrus.space"

def DEFAULT_EPOCHS : Int := 3

/-- The client configuration: publisher (write) and aggregator (read)
base URLs. -/
structure WalrusClient where
  publisher_url : String
  aggregator_url : String
deriving DecidableEq, Repr

/-- The constructor `WalrusClient.__init__`: both URLs are stored with trailing slashes
stripped. -/
def WalrusClient.init (publisher_url : String := PUBLISHER_URL)
    (aggregator_url : String := AGGREGATOR_URL) : WalrusClient :=
  { publisher_url := pyRstrip publisher_url '/'
    aggregator_url := pyRstrip aggregator_url '/' }

/-- The single request `store_blob` issues:
`PUT {publisher_url}/v1/store?epochs={epochs}` with the raw bytes as body
and a 30-second timeout. -/
def store_blob_request (c : WalrusClient) (data : Bytes) (epochs : Int) : Request :=
  { method := .PUT
    url := c.publisher_url ++ "/v1/store"
    params := [("epochs", toString epochs)]
    body := some data
    timeout := 30 }

/-- How `store_blob` turns the transport outcome into its return value or
the exception it (re-)raises: connection failures propagate,
`raise_for_status` raises on 4xx/5xx, otherwise `response.json()` is
parsed and — before the result is returned — the success print calls
`result.get('blobId', 'Unknown')` (line 59), which raises AttributeError
inside `store_blob` whenever the parsed JSON is not a dict; that
AttributeError is not a RequestException, so the except clause does not
catch it.  Only a dict result is returned. -/
def store_blob_response (outcome : TransportOutcome) : Except PyError Json :=
  match outcome with
  | .connectionFailure true => .error .timeoutError
  | .connectionFailure false => .error .connectionError
  | .response r =>
    if raiseForStatus r.status then .error (.httpError r.status)
    else
      match r.jsonBody with
      | none => .error .jsonDecodeError
      | some j =>
        match pyGet j "blobId" with
        | .error e => .error e
        | .ok _ => .ok j

/-- Model of `WalrusClient.store_blob`: issues exactly one request against the
transport `net` and handles its outcome. -/
def store_blob (c : WalrusClient) (data : Bytes) (epochs : Int)
    (net : Request → TransportOutcome) : List Request × Except PyError Json :=
  let req := store_blob_request c data epochs
  ([req], store_blob_response (net req))

/-- The single request `retrieve_blob` issues:
`GET {aggregator_url}/v1/{blob_id}` with a 30-second timeout. -/
def retrieve_blob_request (c : WalrusClient) (blob_id : String) : Request :=
  { method := .GET
    url := c.aggregator_url ++ "/v1/" ++ blob_id
    params := []
    body := none
    timeout := 30 }

/-- How `retrieve_blob` handles its transport outcome: connection failures
propagate, `raise_for_status` raises on 4xx/5xx, otherwise the raw
`response.content` bytes are returned. -/
def retrieve_blob_response (outcome : TransportOutcome) : Except PyError Bytes :=
  match outcome with
  | .connectionFailure true => .error .timeoutError
  | .connectionFailure false => .error .connectionError
  | .response r =>
    if raiseForStatus r.status then .error (.httpError r.status)
    else .ok r.content

/-- Model of `WalrusClient.retrieve_blob`: issues exactly one request against the
transport `net` and handles its outcome. -/
def retrieve_blob (c : WalrusClient) (blob_id : String)
    (net : Request → TransportOutcome) : List Request × Except PyError Bytes :=
  let req := retrieve_blob_request c blob_id
  ([req], retrieve_blob_response (net req))

/-- The status dict `check_blob_status` returns. -/
structure StatusResult where
  exists' : Bool
  size : Option Int
  content_type : Option String
deriving DecidableEq, Repr

/-- The single request `check_blob_status` issues:
`HEAD {aggregator_url}/v1/{blob_id}` with a 10-second timeout and no body. -/
def check_blob_status_request (c : WalrusClient) (blob_id : String) : Request :=
  { method := .HEAD
    url := c.aggregator_url ++ "/v1/" ++ blob_id
    params := []
    body := none
    timeout := 10 }

/-- How `check_blob_status` handles its transport outcome: a 404 response
is caught (`e.response is not None and e.response.status_code == 404`) and
turned into `{'exists': False}`; every other `RequestException`
(connection failure, timeout, non-404 4xx/5xx) is re-raised.  On success
the result is built from the `content-length` header (default `0`) via
`int(...)` and the `content-type` header (default `'unknown'`). -/
def check_blob_status_response (outcome : TransportOutcome) :
    Except PyError StatusResult :=
  match outcome with
  | .connectionFailure true => .error .timeoutError
  | .connectionFailure false => .error .connectionError
  | .response r =>
    if raiseForStatus r.status then
      if r.status == 404 then
        .ok { exists' := false, size := none, content_type := none }
      else .error (.httpError r.status)
    else
      match headerGet r.headers "content-length" with
      | none =>
        .ok { exists' := true
              size := some 0
              content_type := some ((headerGet r.headers "content-type").getD "unknown") }
      | some lenStr =>
        match pyInt lenStr with
        | none => .error .valueError
        | some n =>
          .ok { exists' := true
                size := some n
                content_type := some ((headerGet r.headers "content-type").getD "unknown") }

/-- Model of `WalrusClient.check_blob_status`: issues exactly one request against
the transport `net` and handles its outcome. -/
def check_blob_status (c : WalrusClient) (blob_id : String)
    (net : Request → TransportOutcome) : List Request × Except PyError StatusResult :=
  let req := check_blob_status_request c blob_id
  ([req], check_blob_status_response (net req))

/-! ### Spec-modelled external service

The publisher/aggregator service is not part of the repository; the
following definitions model it from the spec's external-interface
description so the round-trip claims can be stated. -/

/-- Modelled from the spec: the content-derived blob identifier the
external service assigns ("identified after storage by a content-derived
identifier").  Any injective content-derived encoding serves; this one
writes the bytes in decimal separated by dashes. -/
def blobIdOf (data : Bytes) : String :=
  "blob-" ++ String.intercalate "-" (data.map toString)

/-- Modelled from the spec: the external service's state, a map from
blob identifiers to the stored bytes. -/
structure ServerState where
  blobs : List (String × Bytes)

/-- Decimal rendering of a natural number (the value the server puts in
the `content-length` header). -/
def natToDecimal (n : Nat) : String :=
  if n = 0 then "0"
  else String.mk (((Nat.digits 10 n).map fun d => Char.ofNat (48 + d)).reverse)

/-- Modelled from the spec: `PUT /v1/store?epochs={n}` — the service
stores the body under its content-derived identifier and responds with
JSON containing `blobId`. -/
def serverStore (s : ServerState) (data : Bytes) (_epochs : Int) :
    HTTPResponse × ServerState :=
  let bid := blobIdOf data
  ({ status := 200
     content := []
     jsonBody := some (.obj [("blobId", .str bid)])
     headers := [] },
   { blobs := (bid, data) :: s.blobs })

/-- Modelled from the spec: `GET /v1/{blob_id}` — the service responds
with the stored bytes, or 404 when the identifier is unknown. -/
def serverRetrieve (s : ServerState) (blob_id : String) : HTTPResponse :=
  match s.blobs.lookup blob_id with
  | some data =>
    { status := 200, content := data, jsonBody := none, headers := [] }
  | none =>
    { status := 404, content := [], jsonBody := none, headers := [] }

/-- Modelled from the spec: the `HEAD` variant — headers only
(`content-length`, `content-type`), no body, or 404 when the identifier
is unknown. -/
def serverHead (s : ServerState) (blob_id : String) : HTTPResponse :=
  match s.blobs.lookup blob_id with
  | some data =>
    { status := 200
      content := []
      jsonBody := none
      headers := [("content-length", natToDecimal data.length),
                  ("content-type", "application/octet-stream")] }
  | none =>
    { status := 404, content := [], jsonBody := none, headers := [] }

/-! ### The spec's error taxonomy

The spec classifies the exceptions the client raises into four types.
These definitions follow the spec's words, to be compared with the
exceptions the embedded code raises. -/

/-- The spec's four-type error taxonomy. -/
inductive WalrusError where
  | TransportError : WalrusError
  | ServerError (status : Nat) : WalrusError
  | NotFoundError : WalrusError
  | IntegrityError : WalrusError
deriving DecidableEq, Repr

/-- Taxonomy classification of an exception raised by `store_blob`:
connection/timeout → `TransportError`; an HTTP status error →
`ServerError` (the taxonomy reserves `NotFoundError` for 404 on
retrieve). -/
def classifyStoreError : PyError → Option WalrusError
  | .connectionError => some .TransportError
  | .timeoutError => some .TransportError
  | .httpError s => some (.ServerError s)
  | _ => none

/-- Taxonomy classification of an exception raised by `retrieve_blob`:
connection/timeout → `TransportError`; a 404 status error →
`NotFoundError`; any other status error → `ServerError`. -/
def classifyRetrieveError : PyError → Option WalrusError
  | .connectionError => some .TransportError
  | .timeoutError => some .TransportError
  | .httpError s =>
    if s == 404 then some .NotFoundError else some (.ServerError s)
  | _ => none

/-! ### The `main` demonstration flow -/

/-- Which client calls `main` performed, in order. -/
inductive CallKind where
  | store : CallKind
  | status : CallKind
  | retrieve : CallKind
deriving DecidableEq, Repr

/-- How `main` returned: `success` is the `return 0` at the end of the
`try` block (reached whether or not the integrity check passed),
`earlyNone` is the bare `return` taken when the store result has no
usable `blobId`, and `errorReturn` is the `return 1` of the
`except Exception` handler. -/
inductive MainResult where
  | success : MainResult
  | earlyNone : MainResult
  | errorReturn (e : PyError) : MainResult
deriving DecidableEq, Repr

/-- The claim-relevant lines `main` prints. -/
inductive Output where
  | blobIdMissingMsg : Output
  | integrityCheckMsg (passed : Bool) : Output
  | integrityWarningMsg : Output
  | errorMsg (e : PyError) : Output
deriving DecidableEq, Repr

/-- A run of `main`: its return value, the client calls it performed, and
the claim-relevant lines it printed. -/
structure MainRun where
  result : MainResult
  calls : List CallKind
  output : List Output
deriving DecidableEq, Repr

/-- The transport outcomes of the three client calls `main` can make. -/
structure Env where
  storeOutcome : TransportOutcome
  statusOutcome : TransportOutcome
  retrieveOutcome : TransportOutcome

/-- The test `if not blob_id` on `store_result.get('blobId')`: an absent key gives
`None` (falsy); otherwise Python truthiness of the value. -/
def blobIdMissing : Option Json → Bool
  | none => true
  | some v => jsonFalsy v

/-- The example's `main`: store the sample data, read `blobId` from the
result (bare `return` when missing/falsy), check status, retrieve, and
compare retrieved to stored bytes.  Any exception is caught by the
`except Exception` handler, which prints the error and returns 1; an
integrity mismatch only prints a FAILED check line and a warning and
still reaches `return 0`. -/
def main (sample_data : Bytes) (env : Env) : MainRun :=
  match store_blob_response env.storeOutcome with
  | .error e =>
    { result := .errorReturn e, calls := [.store], output := [.errorMsg e] }
  | .ok store_result =>
    match pyGet store_result "blobId" with
    | .error e =>
      { result := .errorReturn e, calls := [.store], output := [.errorMsg e] }
    | .ok blob_id =>
      if blobIdMissing blob_id then
        { result := .earlyNone, calls := [.store], output := [.blobIdMissingMsg] }
      else
        match check_blob_status_response env.statusOutcome with
        | .error e =>
          { result := .errorReturn e
            calls := [.store, .status]
            output := [.errorMsg e] }
        | .ok _status =>
          match retrieve_blob_response env.retrieveOutcome with
          | .error e =>
            { result := .errorReturn e
              calls := [.store, .status, .retrieve]
              output := [.errorMsg e] }
          | .ok retrieved_data =>
            if sample_data = retrieved_data then
              { result := .success
                calls := [.store, .status, .retrieve]
                output := [.integrityCheckMsg true] }
            else
              { result := .success
                calls := [.store, .status, .retrieve]
                output := [.integrityCheckMsg false, .integrityWarningMsg] }

/-- Process exit code of `sys.exit(main())`: `sys.exit(0)` and `sys.exit(None)` give process
exit code 0, `sys.exit(1)` gives 1. -/
def sysExitCode : MainResult → Nat
  | .success => 0
  | .earlyNone => 0
  | .errorReturn _ => 1

/-! ### Concrete fixtures used by witnesses -/

/-- A small concrete payload. -/
def sampleData : Bytes := [1, 2, 3]

/-- A store response carrying a usable `blobId`. -/
def sampleStoreResp : HTTPResponse :=
  { status := 200, content := [], jsonBody := some (.obj [("blobId", .str "abc")]), headers := [] }

/-- A HEAD response for a three-byte blob. -/
def sampleHeadResp : HTTPResponse :=
  { status := 200, content := [], jsonBody := none
    headers := [("content-length", "3"), ("content-type", "text/plain")] }

/-- A GET response returning the given bytes. -/
def sampleGetResp (b : Bytes) : HTTPResponse :=
  { status := 200, content := b, jsonBody := none, headers := [] }

/-- An environment in which the whole flow succeeds and the bytes round-trip. -/
def envOk : Env :=
  { storeOutcome := .response sampleStoreResp
    statusOutcome := .response sampleHeadResp
    retrieveOutcome := .response (sampleGetResp sampleData) }

/-- An environment in which retrieval returns different bytes than were stored. -/
def envBadRetrieve : Env :=
  { storeOutcome := .response sampleStoreResp
    statusOutcome := .response sampleHeadResp
    retrieveOutcome := .response (sampleGetResp [9]) }

/-- An environment in which the store call hits a connection failure. -/
def envStoreFail : Env :=
  { storeOutcome := .connectionFailure false
    statusOutcome := .response sampleHeadResp
    retrieveOutcome := .response (sampleGetResp sampleData) }

/-- An environment in which the store call succeeds but the response JSON
has no `blobId` key. -/
def envNoBlobId : Env :=
  { storeOutcome := .response { status := 200, content := [], jsonBody := some (.obj []), headers := [] }
    statusOutcome := .response sampleHeadResp
    retrieveOutcome := .response (sampleGetResp sampleData) }

/-! ### Auxiliary lemmas -/

theorem digitChar_toNat {d : Nat} (hd : d < 10) : (Char.ofNat (48 + d)).toNat = 48 + d := by
  interval_cases d <;> decide

theorem foldr_digitChars (L : List Nat) (hL : ∀ d ∈ L, d < 10) :
    (L.map fun d => Char.ofNat (48 + d)).foldr (fun c acc => acc * 10 + (c.toNat - 48)) 0
      = Nat.ofDigits 10 L := by
  induction L with
  | nil => simp [Nat.ofDigits]
  | cons d L ih =>
    simp only [List.map_cons, List.foldr_cons, Nat.ofDigits_cons]
    rw [ih fun x hx => hL x (List.mem_cons_of_mem _ hx),
      digitChar_toNat (hL d (List.mem_cons_self _ _))]
    omega

theorem decimalToNat_digits (n : Nat) :
    decimalToNat (((Nat.digits 10 n).map fun d => Char.ofNat (48 + d)).reverse) = n := by
  unfold decimalToNat
  rw [List.foldl_reverse, foldr_digitChars _ fun d hd => Nat.digits_lt_base (by norm_num) hd,
    Nat.ofDigits_digits]

theorem mem_digitChars_bounds {n : Nat} {c : Char}
    (hc : c ∈ ((Nat.digits 10 n).map fun d => Char.ofNat (48 + d)).reverse) :
    48 ≤ c.toNat ∧ c.toNat ≤ 57 := by
  rw [List.mem_reverse, List.mem_map] at hc
  obtain ⟨d, hd, rfl⟩ := hc
  have hlt : d < 10 := Nat.digits_lt_base (by norm_num) hd
  rw [digitChar_toNat hlt]
  omega

/-- Parsing the decimal rendering of a natural number recovers it:
the model of Python `int()` inverts `natToDecimal`. -/
theorem pyInt_natToDecimal (n : Nat) : pyInt (natToDecimal n) = some (n : Int) := by
  by_cases h0 : n = 0
  · subst h0; rfl
  · unfold natToDecimal
    rw [if_neg h0]
    set cs : List Char := ((Nat.digits 10 n).map fun d => Char.ofNat (48 + d)).reverse with hcs
    have hne : cs ≠ [] := by
      simp only [hcs, ne_eq, List.reverse_eq_nil_iff, List.map_eq_nil_iff]
      exact Nat.digits_ne_nil_iff_ne_zero.mpr h0
    obtain ⟨c, rest, hsplit⟩ := List.exists_cons_of_ne_nil hne
    have hcm : c ∈ cs := by rw [hsplit]; exact List.mem_cons_self _ _
    have hbounds := mem_digitChars_bounds (hcs ▸ hcm)
    have hdigits : charDigits cs = true := by
      rw [charDigits, List.all_eq_true]
      intro x hx
      have := mem_digitChars_bounds (hcs ▸ hx)
      simp [this.1, this.2]
    have htl : (String.mk cs).toList = cs := rfl
    unfold pyInt
    simp only [htl]
    rw [hsplit]
    have hnm : (c == '-') = false := by
      rw [beq_eq_false_iff_ne]
      intro h
      rw [h] at hbounds
      simp at hbounds
    have hnp : (c == '+') = false := by
      rw [beq_eq_false_iff_ne]
      intro h
      rw [h] at hbounds
      simp at hbounds
    simp only [List.isEmpty_cons, List.headD_cons, hnm, hnp, if_false, Bool.false_eq_true]
    rw [pyUInt, if_neg (by simp), if_pos (hsplit ▸ hdigits)]
    rw [← hsplit, hcs, decimalToNat_digits]
    simp

/-- A blob just inserted at the front of the server's map is what a lookup
for its identifier finds. -/
theorem lookup_insert_self (bid : String) (data : Bytes) (rest : List (String × Bytes)) :
    List.lookup bid ((bid, data) :: rest) = some data := by
  simp [List.lookup]

/-- Reduction of `store_blob_response` at an HTTP response. -/
theorem store_blob_response_response (r : HTTPResponse) :
    store_blob_response (.response r)
      = if raiseForStatus r.status then .error (.httpError r.status)
        else
          match r.jsonBody with
          | none => .error .jsonDecodeError
          | some j =>
            match pyGet j "blobId" with
            | .error e => .error e
            | .ok _ => .ok j := rfl

/-- Reduction of `retrieve_blob_response` at an HTTP response. -/
theorem retrieve_blob_response_response (r : HTTPResponse) :
    retrieve_blob_response (.response r)
      = if raiseForStatus r.status then .error (.httpError r.status)
        else .ok r.content := rfl

/-- Reduction of `check_blob_status_response` at an HTTP response. -/
theorem check_blob_status_response_response (r : HTTPResponse) :
    check_blob_status_response (.response r)
      = if raiseForStatus r.status then
          if r.status == 404 then
            .ok { exists' := false, size := none, content_type := none }
          else .error (.httpError r.status)
        else
          match headerGet r.headers "content-length" with
          | none =>
            .ok { exists' := true, size := some 0,
                  content_type := some ((headerGet r.headers "content-type").getD "unknown") }
          | some lenStr =>
            match pyInt lenStr with
            | none => .error .valueError
            | some n =>
              .ok { exists' := true, size := some n,
                    content_type := some ((headerGet r.headers "content-type").getD "unknown") } := rfl

/-! ### Claims -/

/-- C1: for every byte payload P (the quantifier covers empty and
arbitrarily large payloads) and every epoch count e ≥ 1, storing P against
the spec-modelled service returns JSON whose `blobId` is the
content-derived identifier of P, and retrieving that identifier from the
post-store service state returns exactly the bytes P. -/
theorem store_retrieve_roundtrip (s : ServerState) (P : Bytes) (e : Int) (_he : 1 ≤ e) :
    store_blob_response (.response (serverStore s P e).1)
        = .ok (.obj [("blobId", .str (blobIdOf P))]) ∧
    retrieve_blob_response (.response (serverRetrieve (serverStore s P e).2 (blobIdOf P)))
        = .ok P := by
  refine ⟨rfl, ?_⟩
  simp only [serverRetrieve, serverStore, lookup_insert_self]
  rfl

/-- C1 witness: the round trip at a concrete three-byte payload stored for
one epoch. -/
theorem store_retrieve_roundtrip_witness :
    retrieve_blob_response
        (.response (serverRetrieve (serverStore ⟨[]⟩ sampleData 1).2 (blobIdOf sampleData)))
      = .ok sampleData :=
  (store_retrieve_roundtrip ⟨[]⟩ sampleData 1 (by norm_num)).2

/-- C5: `check_blob_status` turns a 404 status probe into
`{'exists': False}` without raising, re-raises every other 4xx/5xx HTTP
error, and re-raises connection failures and timeouts. -/
theorem check_status_not_found_and_propagation (r r' : HTTPResponse) (t : Bool)
    (h404 : r.status = 404)
    (h4 : 400 ≤ r'.status) (h6 : r'.status < 600) (hne : r'.status ≠ 404) :
    check_blob_status_response (.response r)
        = .ok { exists' := false, size := none, content_type := none } ∧
    check_blob_status_response (.response r') = .error (.httpError r'.status) ∧
    check_blob_status_response (.connectionFailure t)
        = .error (if t then .timeoutError else .connectionError) := by
  refine ⟨?_, ?_, ?_⟩
  · obtain ⟨st, co, jb, hd⟩ := r
    have hst : st = 404 := h404
    subst hst
    rfl
  · unfold check_blob_status_response
    have hrs : raiseForStatus r'.status = true := by
      unfold raiseForStatus
      rw [decide_eq_true h4, decide_eq_true h6]
      rfl
    have h404f : (r'.status == 404) = false := beq_eq_false_iff_ne.mpr hne
    simp [hrs, h404f]
  · cases t <;> rfl

/-- C5 witness: a 404 probe at a concrete response gives exists = false. -/
theorem check_status_not_found_and_propagation_witness :
    check_blob_status_response
        (.response { status := 404, content := [], jsonBody := none, headers := [] })
      = .ok { exists' := false, size := none, content_type := none } :=
  (check_status_not_found_and_propagation
    { status := 404, content := [], jsonBody := none, headers := [] }
    { status := 500, content := [], jsonBody := none, headers := [] } false rfl
    (by norm_num) (by norm_num) (by norm_num)).1

/-- C6: a status check on the identifier of a just-stored payload P
against the spec-modelled service reports exists = true with size equal
to the payload length. -/
theorem check_status_just_stored (s : ServerState) (P : Bytes) (e : Int) (_he : 1 ≤ e) :
    check_blob_status_response (.response (serverHead (serverStore s P e).2 (blobIdOf P)))
      = .ok { exists' := true, size := some (P.length : Int),
              content_type := some "application/octet-stream" } := by
  simp only [serverHead, serverStore, lookup_insert_self]
  unfold check_blob_status_response
  have h200 : raiseForStatus 200 = false := by decide
  have hcl : headerGet [("content-length", natToDecimal P.length),
        ("content-type", "application/octet-stream")] "content-length"
      = some (natToDecimal P.length) := rfl
  have hct : headerGet [("content-length", natToDecimal P.length),
        ("content-type", "application/octet-stream")] "content-type"
      = some "application/octet-stream" := rfl
  simp [h200, hcl, hct, pyInt_natToDecimal]

/-- C6 witness: the status check on a freshly stored two-byte payload. -/
theorem check_status_just_stored_witness :
    check_blob_status_response
        (.response (serverHead (serverStore ⟨[]⟩ [7, 8] 1).2 (blobIdOf [7, 8])))
      = .ok { exists' := true, size := some (([7, 8] : Bytes).length : Int),
              content_type := some "application/octet-stream" } :=
  check_status_just_stored ⟨[]⟩ [7, 8] 1 (by norm_num)

/-- C7: each of the three client operations issues exactly one request,
with no retry: a 30-second timeout for store and retrieve and a
10-second timeout for the status check. -/
theorem single_bounded_request (c : WalrusClient) (data : Bytes) (epochs : Int)
    (blob_id : String) (net : Request → TransportOutcome) :
    ((store_blob c data epochs net).1 = [store_blob_request c data epochs] ∧
      (store_blob c data epochs net).1.length = 1 ∧
      (store_blob_request c data epochs).timeout = 30) ∧
    ((retrieve_blob c blob_id net).1 = [retrieve_blob_request c blob_id] ∧
      (retrieve_blob c blob_id net).1.length = 1 ∧
      (retrieve_blob_request c blob_id).timeout = 30) ∧
    ((check_blob_status c blob_id net).1 = [check_blob_status_request c blob_id] ∧
      (check_blob_status c blob_id net).1.length = 1 ∧
      (check_blob_status_request c blob_id).timeout = 10) :=
  ⟨⟨rfl, rfl, rfl⟩, ⟨rfl, rfl, rfl⟩, ⟨rfl, rfl, rfl⟩⟩

/-- C2 counterexample: at a 300 response (non-2xx) whose body is a JSON
dict, `store_blob` raises no error at all — `raise_for_status` only
raises for 4xx/5xx, and the dict passes line 59 unharmed — and returns
the parsed JSON, contradicting "ServerError on a non-2xx response"; and
at a 500 response `retrieve_blob` raises the HTTP status error, which
the taxonomy classifies as ServerError, not TransportError, contradicting
"retrieve raises TransportError otherwise". -/
theorem error_taxonomy_counterexample :
    store_blob_response
        (.response { status := 300, content := [], jsonBody := some (.obj []), headers := [] })
      = .ok (.obj []) ∧
    retrieve_blob_response
        (.response { status := 500, content := [], jsonBody := none, headers := [] })
      = .error (.httpError 500) ∧
    classifyRetrieveError (.httpError 500) = some (.ServerError 500) ∧
    some (WalrusError.ServerError 500) ≠ some WalrusError.TransportError :=
  ⟨rfl, rfl, rfl, by decide⟩

/-- C2 (amended): store raises a connection/timeout exception on transport
failure (classified TransportError) and the HTTP status exception on any
4xx/5xx response (classified ServerError); retrieve raises the
connection/timeout exception on transport failure (TransportError) and
the HTTP status exception on any 4xx/5xx response, classified
NotFoundError when the status is 404 and ServerError otherwise. -/
theorem store_retrieve_error_taxonomy (t : Bool) (r : HTTPResponse)
    (h4 : 400 ≤ r.status) (h6 : r.status < 600) :
    (∃ e, store_blob_response (.connectionFailure t) = .error e ∧
        classifyStoreError e = some .TransportError) ∧
    (store_blob_response (.response r) = .error (.httpError r.status) ∧
      classifyStoreError (.httpError r.status) = some (.ServerError r.status)) ∧
    (∃ e, retrieve_blob_response (.connectionFailure t) = .error e ∧
        classifyRetrieveError e = some .TransportError) ∧
    (retrieve_blob_response (.response r) = .error (.httpError r.status) ∧
      classifyRetrieveError (.httpError r.status)
        = some (if r.status = 404 then .NotFoundError else .ServerError r.status)) := by
  have hrs : raiseForStatus r.status = true := by
    unfold raiseForStatus
    rw [decide_eq_true h4, decide_eq_true h6]
    rfl
  refine ⟨?_, ⟨?_, rfl⟩, ?_, ⟨?_, ?_⟩⟩
  · cases t
    · exact ⟨.connectionError, rfl, rfl⟩
    · exact ⟨.timeoutError, rfl, rfl⟩
  · simp [store_blob_response_response, hrs]
  · cases t
    · exact ⟨.connectionError, rfl, rfl⟩
    · exact ⟨.timeoutError, rfl, rfl⟩
  · simp [retrieve_blob_response_response, hrs]
  · unfold classifyRetrieveError
    by_cases h : r.status = 404
    · simp [h]
    · simp [beq_eq_false_iff_ne.mpr h, h]

/-- C2 witness: a 404 store response raises the HTTP status exception. -/
theorem store_retrieve_error_taxonomy_witness :
    store_blob_response
        (.response { status := 404, content := [], jsonBody := none, headers := [] })
      = .error (.httpError 404) :=
  (store_retrieve_error_taxonomy false
    { status := 404, content := [], jsonBody := none, headers := [] }
    (by norm_num) (by norm_num)).2.1.1

/-- C8: the shapes of the three requests — store is a PUT on
`{publisher_url}/v1/store` with `epochs` as query parameter, the raw
bytes as body; retrieve is a GET on `{aggregator_url}/v1/{blob_id}`
returning the raw response bytes on 2xx; the status probe is a HEAD on
the same read URL with no request body — plus: a 2xx store returns the
server's parsed JSON dict (as the spec's "response JSON containing
blobId" is; a non-dict body would instead raise AttributeError at the
success print), and the status result depends only on the status code
and the content-length/content-type headers (no body is read). -/
theorem request_shapes (c : WalrusClient) (data : Bytes) (epochs : Int) (blob_id : String)
    (r : HTTPResponse) (fields : List (String × Json)) (h2 : 200 ≤ r.status)
    (h3 : r.status < 300) (hj : r.jsonBody = some (.obj fields)) :
    store_blob_request c data epochs
        = { method := .PUT, url := c.publisher_url ++ "/v1/store",
            params := [("epochs", toString epochs)], body := some data, timeout := 30 } ∧
    store_blob_response (.response r) = .ok (.obj fields) ∧
    retrieve_blob_request c blob_id
        = { method := .GET, url := c.aggregator_url ++ "/v1/" ++ blob_id,
            params := [], body := none, timeout := 30 } ∧
    retrieve_blob_response (.response r) = .ok r.content ∧
    (check_blob_status_request c blob_id).method = .HEAD ∧
    (check_blob_status_request c blob_id).url = (retrieve_blob_request c blob_id).url ∧
    (check_blob_status_request c blob_id).body = none ∧
    (∀ r₁ r₂ : HTTPResponse, r₁.status = r₂.status →
      headerGet r₁.headers "content-length" = headerGet r₂.headers "content-length" →
      headerGet r₁.headers "content-type" = headerGet r₂.headers "content-type" →
      check_blob_status_response (.response r₁) = check_blob_status_response (.response r₂)) := by
  have hrs : raiseForStatus r.status = false := by
    unfold raiseForStatus
    rw [decide_eq_false (by omega : ¬(400 ≤ r.status))]
    rfl
  refine ⟨rfl, ?_, rfl, ?_, rfl, rfl, rfl, ?_⟩
  · simp [store_blob_response_response, hrs, hj, pyGet]
  · simp [retrieve_blob_response_response, hrs]
  · intro r₁ r₂ hst hcl hct
    rw [check_blob_status_response_response, check_blob_status_response_response,
      hst, hcl, hct]

/-- C8 witness: a 2xx store response at a concrete JSON dict body is
returned as-is. -/
theorem request_shapes_witness :
    store_blob_response (.response sampleStoreResp) = .ok (.obj [("blobId", .str "abc")]) :=
  (request_shapes (WalrusClient.init PUBLISHER_URL AGGREGATOR_URL) sampleData 3 "abc"
    sampleStoreResp [("blobId", .str "abc")] (by decide) (by decide) rfl).2.1

/-- C10: on a successful (2xx) status probe, any result the probe returns
has exists = true and concrete (non-absent) size and content_type; when
the content-length header is missing the size defaults to 0; and in every
returned result where the content-type header is missing — whether or
not a content-length header is present — the content type is the string
"unknown". -/
theorem check_status_concrete_defaults (r : HTTPResponse)
    (h2 : 200 ≤ r.status) (h3 : r.status < 300) :
    (∀ res, check_blob_status_response (.response r) = .ok res →
        res.exists' = true ∧ res.size ≠ none ∧ res.content_type ≠ none) ∧
    (headerGet r.headers "content-length" = none →
      check_blob_status_response (.response r)
        = .ok { exists' := true, size := some 0,
                content_type := some ((headerGet r.headers "content-type").getD "unknown") }) ∧
    (headerGet r.headers "content-type" = none →
      ∀ res, check_blob_status_response (.response r) = .ok res →
        res.content_type = some "unknown") := by
  have hrs : raiseForStatus r.status = false := by
    unfold raiseForStatus
    rw [decide_eq_false (by omega : ¬(400 ≤ r.status))]
    rfl
  rw [check_blob_status_response_response]
  simp only [hrs, Bool.false_eq_true, if_false]
  refine ⟨?_, ?_, ?_⟩
  · intro res hres
    cases hcl : headerGet r.headers "content-length" with
    | none =>
      simp only [hcl] at hres
      cases hres
      exact ⟨rfl, by simp, by simp⟩
    | some lenStr =>
      simp only [hcl] at hres
      cases hpi : pyInt lenStr with
      | none =>
        simp only [hpi] at hres
        exact Except.noConfusion hres
      | some n =>
        simp only [hpi] at hres
        cases hres
        exact ⟨rfl, by simp, by simp⟩
  · intro hcl
    simp only [hcl]
  · intro hct res hres
    cases hcl : headerGet r.headers "content-length" with
    | none =>
      simp only [hcl, hct, Option.getD_none] at hres
      cases hres
      rfl
    | some lenStr =>
      simp only [hcl] at hres
      cases hpi : pyInt lenStr with
      | none =>
        simp only [hpi] at hres
        exact Except.noConfusion hres
      | some n =>
        simp only [hpi, hct, Option.getD_none] at hres
        cases hres
        rfl

/-- C10 witness: a 200 probe with no headers at all returns
exists = true, size = 0, content type "unknown". -/
theorem check_status_concrete_defaults_witness :
    check_blob_status_response
        (.response { status := 200, content := [], jsonBody := none, headers := [] })
      = .ok { exists' := true, size := some 0, content_type := some "unknown" } :=
  (check_status_concrete_defaults
    { status := 200, content := [], jsonBody := none, headers := [] }
    (by norm_num) (by norm_num)).2.1 rfl

/-- Every run of `main` has one of six shapes: an error return (with the
diagnostic printed) after one, two or three client calls; the early bare
return on a missing blobId; or a completed flow with the integrity check
passing or failing. -/
theorem main_shape (P : Bytes) (env : Env) :
    (∃ e, main P env
        = { result := .errorReturn e, calls := [.store], output := [.errorMsg e] }) ∨
    (∃ e, main P env
        = { result := .errorReturn e, calls := [.store, .status], output := [.errorMsg e] }) ∨
    (∃ e, main P env
        = { result := .errorReturn e, calls := [.store, .status, .retrieve],
            output := [.errorMsg e] }) ∨
    main P env
      = { result := .earlyNone, calls := [.store], output := [.blobIdMissingMsg] } ∨
    main P env
      = { result := .success, calls := [.store, .status, .retrieve],
          output := [.integrityCheckMsg true] } ∨
    main P env
      = { result := .success, calls := [.store, .status, .retrieve],
          output := [.integrityCheckMsg false, .integrityWarningMsg] } := by
  unfold main
  rcases store_blob_response env.storeOutcome with es | j
  · exact Or.inl ⟨es, rfl⟩
  dsimp only
  rcases pyGet j "blobId" with eg | bid
  · exact Or.inl ⟨eg, rfl⟩
  dsimp only
  by_cases hb : blobIdMissing bid = true
  · rw [if_pos hb]
    exact Or.inr (Or.inr (Or.inr (Or.inl rfl)))
  rw [if_neg hb]
  rcases check_blob_status_response env.statusOutcome with ec | st
  · exact Or.inr (Or.inl ⟨ec, rfl⟩)
  dsimp only
  rcases retrieve_blob_response env.retrieveOutcome with er | rb
  · exact Or.inr (Or.inr (Or.inl ⟨er, rfl⟩))
  dsimp only
  by_cases hi : P = rb
  · rw [if_pos hi]
    exact Or.inr (Or.inr (Or.inr (Or.inr (Or.inl rfl))))
  · rw [if_neg hi]
    exact Or.inr (Or.inr (Or.inr (Or.inr (Or.inr rfl))))

/-- C3: an exit code of 0 when the flow succeeds (main returns 0) and of
1 when main catches an exception and returns 1, in which case the error
diagnostic is among the printed output. -/
theorem main_exit_codes (P : Bytes) (env : Env) :
    ((main P env).result = .success → sysExitCode (main P env).result = 0) ∧
    ∀ e, (main P env).result = .errorReturn e →
      sysExitCode (main P env).result = 1 ∧ Output.errorMsg e ∈ (main P env).output := by
  refine ⟨fun h => by rw [h]; rfl, fun e h => ⟨by rw [h]; rfl, ?_⟩⟩
  rcases main_shape P env with ⟨e', he'⟩ | ⟨e', he'⟩ | ⟨e', he'⟩ | he' | he' | he' <;>
    rw [he'] at h ⊢
  · have h2 : MainResult.errorReturn e' = .errorReturn e := h
    injection h2 with hh
    subst hh
    exact List.mem_singleton.mpr rfl
  · have h2 : MainResult.errorReturn e' = .errorReturn e := h
    injection h2 with hh
    subst hh
    exact List.mem_singleton.mpr rfl
  · have h2 : MainResult.errorReturn e' = .errorReturn e := h
    injection h2 with hh
    subst hh
    exact List.mem_singleton.mpr rfl
  · exact MainResult.noConfusion (show MainResult.earlyNone = .errorReturn e from h)
  · exact MainResult.noConfusion (show MainResult.success = .errorReturn e from h)
  · exact MainResult.noConfusion (show MainResult.success = .errorReturn e from h)

/-- C3 witness: a fully successful run exits 0; a run whose store call
hits a connection failure exits 1 and prints the diagnostic. -/
theorem main_exit_codes_witness :
    sysExitCode (main sampleData envOk).result = 0 ∧
    sysExitCode (main sampleData envStoreFail).result = 1 ∧
    Output.errorMsg .connectionError ∈ (main sampleData envStoreFail).output :=
  ⟨(main_exit_codes sampleData envOk).1 rfl,
   ((main_exit_codes sampleData envStoreFail).2 .connectionError rfl).1,
   ((main_exit_codes sampleData envStoreFail).2 .connectionError rfl).2⟩

/-- C4 counterexample: in the concrete run where retrieval returns [9]
although [1, 2, 3] was stored, no exception is raised and no
IntegrityError exists anywhere in the program: main completes the flow,
prints the FAILED check line and the mismatch warning, returns 0, and
the process exit code is 0 — the mismatch is not treated as an error of
the run. -/
theorem integrity_mismatch_counterexample :
    sampleData ≠ [9] ∧
    main sampleData envBadRetrieve
      = { result := .success, calls := [.store, .status, .retrieve],
          output := [.integrityCheckMsg false, .integrityWarningMsg] } ∧
    sysExitCode (main sampleData envBadRetrieve).result = 0 := by
  exact ⟨by decide, rfl, rfl⟩

/-- C4 (amended): whenever the retrieved bytes differ from the stored
sample in a run that completes the flow, main prints the FAILED
integrity-check line and the mismatch warning, but no error is raised:
the run's result is still success and the process exit code is 0. -/
theorem integrity_mismatch_warns_only (P R : Bytes) (env : Env)
    (hres : (main P env).result = .success)
    (hret : retrieve_blob_response env.retrieveOutcome = .ok R)
    (hne : R ≠ P) :
    (main P env).output = [.integrityCheckMsg false, .integrityWarningMsg] ∧
    sysExitCode (main P env).result = 0 := by
  refine ⟨?_, by rw [hres]; rfl⟩
  unfold main at hres ⊢
  rcases hs : store_blob_response env.storeOutcome with es | j
  · simp only [hs] at hres
    exact MainResult.noConfusion hres
  simp only [hs] at hres ⊢
  rcases hg : pyGet j "blobId" with eg | bid
  · simp only [hg] at hres
    exact MainResult.noConfusion hres
  simp only [hg] at hres ⊢
  by_cases hb : blobIdMissing bid = true
  · rw [if_pos hb] at hres
    exact MainResult.noConfusion hres
  rw [if_neg hb] at hres ⊢
  rcases hc : check_blob_status_response env.statusOutcome with ec | st
  · simp only [hc] at hres
    exact MainResult.noConfusion hres
  simp only [hc] at hres ⊢
  rw [hret] at hres ⊢
  simp only at hres ⊢
  rw [if_neg fun hPR => hne hPR.symm]

/-- C4 (amended) witness: the mismatching run prints exactly the FAILED
check line and the warning. -/
theorem integrity_mismatch_warns_only_witness :
    (main sampleData envBadRetrieve).output
      = [.integrityCheckMsg false, .integrityWarningMsg] :=
  (integrity_mismatch_warns_only sampleData [9] envBadRetrieve rfl rfl (by decide)).1

/-- C9: when the store call succeeds but its JSON has no usable blobId
(absent key or falsy value), main prints the failure message and takes
the bare return: only the store call was performed — no status check, no
retrieval — and since the bare return is None, the process exit code is
0, not 1. -/
theorem missing_blobid_early_exit (P : Bytes) (env : Env) (store_result : Json)
    (o : Option Json)
    (hstore : store_blob_response env.storeOutcome = .ok store_result)
    (hget : pyGet store_result "blobId" = .ok o)
    (hmiss : blobIdMissing o = true) :
    main P env
      = { result := .earlyNone, calls := [.store], output := [.blobIdMissingMsg] } ∧
    sysExitCode (main P env).result = 0 := by
  unfold main
  simp only [hstore, hget]
  rw [if_pos hmiss]
  exact ⟨rfl, rfl⟩

/-- C9 witness: a 200 store response whose JSON is an empty object leads
to the early bare return with exit code 0. -/
theorem missing_blobid_early_exit_witness :
    main sampleData envNoBlobId
      = { result := .earlyNone, calls := [.store], output := [.blobIdMissingMsg] } :=
  (missing_blobid_early_exit sampleData envNoBlobId (.obj []) none rfl rfl rfl).1

end Walrus
